import Mathlib

/-!
Shallow embedding of the validation-and-attestation core of
`Validation_Service/src/monitor.service.js`.

Modelling choices:
* JS numbers used for prices, thresholds and durations are modelled as `ℚ`
  (exact arithmetic), except for the tick conversion `priceToTick`, whose
  `Math.log` forces a real-valued model (`ℝ`).
* Environment configuration (`process.env`) is an explicit `Env` record.
* External collaborators (Chainlink fetch, wall clock, signing wallet,
  external validation endpoint, attestation store, signature recovery,
  validator registry) are fields of an explicit `Externals` record; a fallible
  collaborator is an `Except String` value mirroring a JS promise that either
  resolves or rejects with an error message.
* JS exceptions are `Except.error`; a `try/catch` block is an explicit match
  on the `Except` result of the body.
* The orchestrator calls the `async` function `validatePrices` without
  `await` (source line 30), so it gates on properties of a pending promise;
  those `undefined` property reads are modelled explicitly by
  `pendingSuccess`, `pendingDetails` and JS truthiness `truthy`.
* `solidityPackedKeccak256` is modelled as an injective record of the packed
  fields (`MessageHash`); no cryptographic property is needed by the claims.
-/

/-- A liquidity position as consumed by the validation service. -/
structure Position where
  id : String
  owner : String
  lowerTick : ℤ
  upperTick : ℤ
  isRestaked : Bool
  lastActiveTimestamp : ℤ
deriving Repr, DecidableEq

/-- Environment-derived configuration read at module top level in the source. -/
structure Env where
  VALIDATION_THRESHOLD : ℚ
  POSITION_INACTIVITY_DAYS : ℚ
  VALIDATION_API_URL : Option String
  VALIDATOR_ADDRESS : Option String
  VALIDATOR_PRIVATE_KEY : Option String
deriving Repr, DecidableEq

/-- The packed fields hashed by `solidityPackedKeccak256` in the source; the
hash is modelled as the (injective) record of its preimage fields. -/
structure MessageHash where
  domainTag : String
  positionId : String
  owner : String
  action : String
  timestamp : ℤ
  scaledPrice : ℚ
deriving Repr, DecidableEq

/-- Position fields snapshotted into `attestationData.validationDetails`. -/
structure ValidationDetails where
  lowerTick : ℤ
  upperTick : ℤ
  isRestaked : Bool
  lastActiveTimestamp : ℤ
deriving Repr, DecidableEq

/-- The attestation record built by `generateAttestation`. -/
structure Attestation where
  positionId : String
  owner : String
  action : String
  timestamp : ℤ
  priceAtValidation : ℚ
  validatorAddress : Option String
  validationDetails : ValidationDetails
  signature : Option String := none
  externalValidation : Option String := none
deriving Repr, DecidableEq

/-- Structured payloads appearing in the `details` field of validation
results; one constructor per object shape built in the source (a formatted
price range string is kept as the pair of prices it interpolates). -/
inductive VDetails where
  | priceCheck (binancePrice chainlinkPrice difference threshold : ℚ)
  | reasonPriceRange (reason : String) (currentPrice lowerPrice upperPrice : ℚ)
  | inactiveInfo (reason : String) (inactiveDurationDays : ℤ) (requiredDays : ℚ)
  | reasonOnly (reason : String)
  | errMessage (message : String)
deriving Repr, DecidableEq

/-- Result shape returned by `validatePrices` and `validatePositionState`. -/
structure VResult where
  success : Bool
  details : Option VDetails := none
deriving Repr, DecidableEq

/-- Result shape returned by `validatePositionMovement`. -/
structure MovementResult where
  success : Bool
  reason : Option String := none
  details : Option VDetails := none
  attestation : Option Attestation := none
deriving Repr, DecidableEq

/-- Result shape returned by `verifyAttestation`. -/
structure VerifyResult where
  valid : Bool
  signer : Option String := none
  reason : Option String := none
  isApprovedValidator : Option Bool := none
deriving Repr, DecidableEq

/-- External collaborators of one validation call: each fallible collaborator
is the `Except` outcome its promise settles to during this call. -/
structure Externals where
  chainlinkPrice : Except String ℚ
  now : ℤ
  sign : String → MessageHash → String
  externalSubmit : Except String String
  storeAttestation : Except String Unit
  verifyMessage : MessageHash → String → Except String String
  isApprovedValidator : String → Except String Bool

/-- Uniswap v3 tick-to-price: `1.0001 ^ tick` (source line 296). -/
def tickToPrice (tick : ℤ) : ℚ :=
  (1.0001 : ℚ) ^ tick

/-- Uniswap v3 price-to-tick: `Math.floor(Math.log(price) / Math.log(1.0001))`
(source line 304). `Math.log` forces the real-valued model. -/
noncomputable def priceToTick (price : ℝ) : ℤ :=
  ⌊Real.log price / Real.log 1.0001⌋

/-- Scaling by `ethers.parseUnits(.., 18)`: fixed point at 18 decimals. -/
def parseUnits18 (price : ℚ) : ℚ :=
  price * 10 ^ 18

/-- The message hash both the signer and the verifier pack from an
attestation's fields (source lines 184 and 264). -/
def attestationMessageHash (a : Attestation) : MessageHash :=
  { domainTag := "RESTAKING_ATTESTATION"
    positionId := a.positionId
    owner := a.owner
    action := a.action
    timestamp := a.timestamp
    scaledPrice := parseUnits18 a.priceAtValidation }

/-- `validatePrices` (source lines 69-87): relative difference of the two
samples against the Chainlink sample, rejected when above the threshold. -/
def validatePrices (VALIDATION_THRESHOLD : ℚ) (binancePrice chainlinkPrice : ℚ) : VResult :=
  let priceDiff := |binancePrice - chainlinkPrice| / chainlinkPrice
  if priceDiff > VALIDATION_THRESHOLD then
    { success := false
      details := some (.priceCheck binancePrice chainlinkPrice priceDiff VALIDATION_THRESHOLD) }
  else
    { success := true }

/-- `validatePositionState` (source lines 92-159). `now` is the
`Math.floor(Date.now() / 1000)` sample taken inside the function. -/
def validatePositionState (env : Env) (now : ℤ) (position : Position)
    (action : String) (currentPrice : ℚ) : VResult :=
  let lowerPrice := tickToPrice position.lowerTick
  let upperPrice := tickToPrice position.upperTick
  let isActive : Bool := decide (currentPrice ≥ lowerPrice ∧ currentPrice ≤ upperPrice)
  let inactiveDuration : ℤ := now - position.lastActiveTimestamp
  let inactivityThreshold : ℚ := env.POSITION_INACTIVITY_DAYS * 24 * 60 * 60
  if action = "restake" then
    if isActive then
      { success := false
        details := some (.reasonPriceRange "Position is currently active and cannot be restaked"
          currentPrice lowerPrice upperPrice) }
    else if (inactiveDuration : ℚ) < inactivityThreshold then
      { success := false
        details := some (.inactiveInfo "Position has not been inactive long enough to be restaked"
          (Int.fdiv inactiveDuration 86400) env.POSITION_INACTIVITY_DAYS) }
    else if position.isRestaked then
      { success := false, details := some (.reasonOnly "Position is already restaked") }
    else
      { success := true }
  else if action = "returnToPool" then
    if !isActive then
      { success := false
        details := some (.reasonPriceRange "Position is not active and should remain restaked"
          currentPrice lowerPrice upperPrice) }
    else if !position.isRestaked then
      { success := false, details := some (.reasonOnly "Position is not currently restaked") }
    else
      { success := true }
  else
    { success := true }

/-- `generateAttestation` (source lines 164-214). Signing is skipped without a
key; the external validation POST is wrapped in its own try/catch; the final
`storeAttestation` is NOT wrapped, so its rejection propagates. -/
def generateAttestation (env : Env) (ext : Externals) (position : Position)
    (action : String) (currentPrice : ℚ) : Except String Attestation :=
  let attestationData : Attestation :=
    { positionId := position.id
      owner := position.owner
      action := action
      timestamp := ext.now
      priceAtValidation := currentPrice
      validatorAddress := env.VALIDATOR_ADDRESS
      validationDetails :=
        { lowerTick := position.lowerTick
          upperTick := position.upperTick
          isRestaked := position.isRestaked
          lastActiveTimestamp := position.lastActiveTimestamp } }
  let attestationData : Attestation :=
    match env.VALIDATOR_PRIVATE_KEY with
    | some key =>
      let messageHash : MessageHash :=
        { domainTag := "RESTAKING_ATTESTATION"
          positionId := attestationData.positionId
          owner := attestationData.owner
          action := attestationData.action
          timestamp := attestationData.timestamp
          scaledPrice := parseUnits18 attestationData.priceAtValidation }
      { attestationData with signature := some (ext.sign key messageHash) }
    | none => attestationData
  let attestationData : Attestation :=
    match env.VALIDATION_API_URL with
    | some _ =>
      match ext.externalSubmit with
      | .ok response => { attestationData with externalValidation := some response }
      | .error _ => attestationData
    | none => attestationData
  match ext.storeAttestation with
  | .ok _ => .ok attestationData
  | .error e => .error e

/-- Property read of `success` on a pending JS promise: the source calls the
`async` function `validatePrices` without `await` (line 30), so `priceValid`
is a promise object, not a result; a promise has no `success` property and
the read yields `undefined`. The pending computation is the argument; the
read never sees its eventual resolved value. -/
def pendingSuccess (_pending : VResult) : Option Bool :=
  none

/-- Property read of `details` on the same pending promise: `undefined`. -/
def pendingDetails (_pending : VResult) : Option VDetails :=
  none

/-- JS truthiness of a possibly-undefined boolean: `undefined` is falsy. -/
def truthy : Option Bool → Bool
  | none => false
  | some b => b

/-- Body of `validatePositionMovement` inside the `try` (source lines 25-55):
fetch the Chainlink price, reconcile, evaluate the position state, then
generate the attestation; each failing step returns its own failure record.
Line 30 calls the `async` function `validatePrices` without `await`, so
`priceValid` is a pending promise: the guard at line 31 reads
`priceValid.success` as `undefined` (falsy) and always takes the failure
branch, with `priceValid.details` likewise `undefined`; the remaining steps
are unreachable from this function. -/
def validatePositionMovementE (env : Env) (ext : Externals) (position : Position)
    (action : String) (currentPrice : ℚ) : Except String MovementResult :=
  match ext.chainlinkPrice with
  | .error e => .error e
  | .ok chainlinkPrice =>
    let priceValid := validatePrices env.VALIDATION_THRESHOLD currentPrice chainlinkPrice
    if !truthy (pendingSuccess priceValid) then
      .ok { success := false
            reason := some "Price validation failed"
            details := pendingDetails priceValid }
    else
      let positionValid := validatePositionState env ext.now position action currentPrice
      if positionValid.success = false then
        .ok { success := false
              reason := some "Position state invalid for requested action"
              details := positionValid.details }
      else
        match generateAttestation env ext position action currentPrice with
        | .error e => .error e
        | .ok attestation => .ok { success := true, attestation := some attestation }

/-- `validatePositionMovement` (source lines 24-64): the body wrapped in the
catch-all that turns any thrown error into a uniform failure record. -/
def validatePositionMovement (env : Env) (ext : Externals) (position : Position)
    (action : String) (currentPrice : ℚ) : MovementResult :=
  match validatePositionMovementE env ext position action currentPrice with
  | .ok r => r
  | .error e =>
    { success := false, reason := some "Validation error", details := some (.errMessage e) }

/-- Body of `verifyAttestation` inside the `try` (source lines 257-286). -/
def verifyAttestationE (ext : Externals) (attestation : Attestation) : Except String VerifyResult :=
  match attestation.signature with
  | none => .ok { valid := false, reason := some "No signature on attestation" }
  | some signature =>
    let messageHash := attestationMessageHash attestation
    match ext.verifyMessage messageHash signature with
    | .error e => .error e
    | .ok recoveredAddress =>
      match ext.isApprovedValidator recoveredAddress with
      | .error e => .error e
      | .ok approved =>
        .ok { valid := approved
              signer := some recoveredAddress
              isApprovedValidator := some approved }

/-- `verifyAttestation` (source lines 256-291): the body wrapped in the
catch-all that reports any thrown error as `valid:false` with its message. -/
def verifyAttestation (ext : Externals) (attestation : Attestation) : VerifyResult :=
  match verifyAttestationE ext attestation with
  | .ok r => r
  | .error e => { valid := false, reason := some e }

/-- A sample position: tick range `[0, 1]`, not restaked, last active at 0. -/
def samplePosition : Position :=
  { id := "0xpos1"
    owner := "0xowner1"
    lowerTick := 0
    upperTick := 1
    isRestaked := false
    lastActiveTimestamp := 0 }

/-- A sample configuration with the source defaults and no signing key. -/
def sampleEnv : Env :=
  { VALIDATION_THRESHOLD := 5/100
    POSITION_INACTIVITY_DAYS := 7
    VALIDATION_API_URL := none
    VALIDATOR_ADDRESS := some "0xvalidator"
    VALIDATOR_PRIVATE_KEY := none }

/-- Sample collaborators: every external call succeeds, the clock reads
exactly seven days (604800 seconds). -/
def sampleExternals : Externals :=
  { chainlinkPrice := .ok (1/2)
    now := 604800
    sign := fun _ _ => "0xsig"
    externalSubmit := .ok "externally-validated"
    storeAttestation := .ok ()
    verifyMessage := fun _ _ => .ok "0xvalidator"
    isApprovedValidator := fun a => .ok (a = "0xvalidator") }

/-- The attestation `generateAttestation` builds from the sample inputs. -/
def sampleAttestation : Attestation :=
  { positionId := "0xpos1"
    owner := "0xowner1"
    action := "restake"
    timestamp := 604800
    priceAtValidation := 1/2
    validatorAddress := some "0xvalidator"
    validationDetails :=
      { lowerTick := 0, upperTick := 1, isRestaked := false, lastActiveTimestamp := 0 } }

/-! ### Shared helper lemmas -/

/-- Characterisation of `validatePrices`: success is exactly the relative
difference (with the Chainlink sample as base) being at most the threshold. -/
lemma validatePrices_success_char (t b c : ℚ) :
    (validatePrices t b c).success = true ↔ |b - c| / c ≤ t := by
  by_cases h : |b - c| / c > t
  · simp [validatePrices, h, not_le.mpr h]
  · simp [validatePrices, h, not_lt.mp h]

/-! ### Claims about price reconciliation -/

/-- Claim C2: for every pair of prices and tolerance, `validatePrices` succeeds iff
`|primary - secondary| / secondary <= tolerance`; in particular a relative
difference exactly equal to the tolerance succeeds. -/
theorem validatePrices_success_iff (tolerance primary secondary : ℚ) :
    (validatePrices tolerance primary secondary).success = true ↔
      |primary - secondary| / secondary ≤ tolerance :=
  validatePrices_success_char tolerance primary secondary

/-- Claim C3 counterexample: with the default tolerance 0.05, prices 1.051 and 1
succeed in one order and fail in the other, so the success outcome of
`validatePrices` is not symmetric in its two price arguments. -/
theorem validatePrices_symm_counterexample :
    (validatePrices (5/100) (1051/1000) 1).success = false ∧
    (validatePrices (5/100) 1 (1051/1000)).success = true := by
  constructor
  · simp only [validatePrices]
    rw [if_pos (by rw [abs_of_pos (by norm_num)]; norm_num)]
  · simp only [validatePrices]
    rw [if_neg (by rw [abs_of_neg (by norm_num)]; norm_num)]

/-- Claim C3 amended: full symmetry fails, but a one-sided symmetry holds: for a
nonnegative tolerance and positive prices, if the call whose diff base is the
smaller price succeeds, then the swapped call (diff base the larger price)
also succeeds. -/
theorem validatePrices_swap_success (tolerance a b : ℚ) (ht : 0 ≤ tolerance)
    (hb : 0 < b) (hba : b ≤ a)
    (h : (validatePrices tolerance a b).success = true) :
    (validatePrices tolerance b a).success = true := by
  have ha : 0 < a := lt_of_lt_of_le hb hba
  rw [validatePrices_success_char] at h ⊢
  rw [div_le_iff₀ hb] at h
  rw [div_le_iff₀ ha, abs_sub_comm]
  calc |a - b| ≤ tolerance * b := h
    _ ≤ tolerance * a := mul_le_mul_of_nonneg_left hba ht

/-- Witness for the amended C3 theorem at tolerance 0.05, prices 1.05 and 1. -/
theorem validatePrices_swap_success_witness :
    (0:ℚ) ≤ 5/100 ∧ (0:ℚ) < 1 ∧ (1:ℚ) ≤ 21/20 ∧
    (validatePrices (5/100) (21/20) 1).success = true ∧
    (validatePrices (5/100) 1 (21/20)).success = true :=
  have h : (validatePrices (5/100) (21/20) 1).success = true := by
    simp only [validatePrices]
    rw [if_neg (by rw [abs_of_pos (by norm_num)]; norm_num)]
  ⟨by norm_num, by norm_num, by norm_num, h,
    validatePrices_swap_success (5/100) (21/20) 1 (by norm_num) (by norm_num) (by norm_num) h⟩

/-! ### Claim about the tick/price round trip -/

/-- Claim C10: for every integer tick, converting the tick to a price and back
returns the same tick; in the exact real-number model of the JS arithmetic
the round trip has no exception at all. -/
theorem priceToTick_tickToPrice (tick : ℤ) :
    priceToTick ((tickToPrice tick : ℚ) : ℝ) = tick := by
  have hcast : ((tickToPrice tick : ℚ) : ℝ) = (1.0001 : ℝ) ^ tick := by
    unfold tickToPrice
    push_cast
    norm_num
  have hL : Real.log 1.0001 ≠ 0 := by
    simp only [ne_eq, Real.log_eq_zero]
    push_neg
    norm_num
  rw [priceToTick, hcast, Real.log_zpow, mul_div_cancel_right₀ _ hL, Int.floor_intCast]

/-! ### Claims about the position state evaluator -/

/-- Claim C4: a not-restaked position whose current price lies strictly outside the
tick range and whose inactive duration equals the inactivity threshold exactly
passes the `restake` evaluation: the duration precondition is inclusive. -/
theorem validatePositionState_restake_at_threshold (env : Env) (now : ℤ)
    (position : Position) (currentPrice : ℚ)
    (hRestaked : position.isRestaked = false)
    (hOutside : currentPrice < tickToPrice position.lowerTick ∨
      tickToPrice position.upperTick < currentPrice)
    (hDuration : ((now - position.lastActiveTimestamp : ℤ) : ℚ) =
      env.POSITION_INACTIVITY_DAYS * 24 * 60 * 60) :
    (validatePositionState env now position "restake" currentPrice).success = true := by
  have hNotActive : ¬(currentPrice ≥ tickToPrice position.lowerTick ∧
      currentPrice ≤ tickToPrice position.upperTick) := by
    rcases hOutside with h | h
    · exact fun hc => absurd hc.1 (not_le.mpr h)
    · exact fun hc => absurd hc.2 (not_le.mpr h)
  simp only [validatePositionState, if_pos rfl, decide_eq_false hNotActive, Bool.false_eq_true,
    if_false, hDuration, hRestaked, lt_irrefl, if_true]

/-- Witness for C4: the sample position with price 0.5 (below the range
`[1, 1.0001]`) and inactive for exactly the seven-day threshold restakes. -/
theorem validatePositionState_restake_at_threshold_witness :
    samplePosition.isRestaked = false ∧
    ((1:ℚ)/2 < tickToPrice samplePosition.lowerTick ∨
      tickToPrice samplePosition.upperTick < 1/2) ∧
    ((604800 - samplePosition.lastActiveTimestamp : ℤ) : ℚ) =
      sampleEnv.POSITION_INACTIVITY_DAYS * 24 * 60 * 60 ∧
    (validatePositionState sampleEnv 604800 samplePosition "restake" (1/2)).success = true :=
  have hout : (1:ℚ)/2 < tickToPrice samplePosition.lowerTick ∨
      tickToPrice samplePosition.upperTick < 1/2 :=
    Or.inl (by norm_num [samplePosition, tickToPrice])
  have hdur : ((604800 - samplePosition.lastActiveTimestamp : ℤ) : ℚ) =
      sampleEnv.POSITION_INACTIVITY_DAYS * 24 * 60 * 60 := by
    norm_num [samplePosition, sampleEnv]
  ⟨rfl, hout, hdur,
    validatePositionState_restake_at_threshold sampleEnv 604800 samplePosition (1/2)
      rfl hout hdur⟩

/-- Claim C5: a position that is not restaked never passes the `returnToPool`
evaluation, whatever the current price: it fails the activity check when the
price is out of range and the restaked check otherwise. -/
theorem validatePositionState_returnToPool_notRestaked (env : Env) (now : ℤ)
    (position : Position) (currentPrice : ℚ)
    (hRestaked : position.isRestaked = false) :
    (validatePositionState env now position "returnToPool" currentPrice).success = false := by
  by_cases hA : currentPrice ≥ tickToPrice position.lowerTick ∧
      currentPrice ≤ tickToPrice position.upperTick
  · simp [validatePositionState, hA, hRestaked]
  · simp [validatePositionState, hA, hRestaked]

/-- Witness for C5: the sample (not restaked) position fails `returnToPool`
at price 0.5. -/
theorem validatePositionState_returnToPool_notRestaked_witness :
    samplePosition.isRestaked = false ∧
    (validatePositionState sampleEnv 604800 samplePosition "returnToPool" (1/2)).success
      = false :=
  ⟨rfl, validatePositionState_returnToPool_notRestaked sampleEnv 604800 samplePosition (1/2) rfl⟩

/-- Claim C6 (code bug at the orchestrator): an action string other than
`restake` and `returnToPool` does pass `validatePositionState` with no
precondition checked (first conjunct), and at this input the resolved price
reconciliation succeeds (second conjunct) and the store is available — yet
`validatePositionMovement` returns the price-failure record with no
attestation (third conjunct), because line 30 calls the async
`validatePrices` without `await` and the gate reads `undefined` from the
pending promise. -/
theorem validatePositionMovement_unrecognized_action_bug :
    (validatePositionState sampleEnv sampleExternals.now samplePosition "rebalance"
      (1/2)).success = true ∧
    (validatePrices sampleEnv.VALIDATION_THRESHOLD (1/2) (1/2)).success = true ∧
    validatePositionMovement sampleEnv sampleExternals samplePosition "rebalance" (1/2) =
      { success := false, reason := some "Price validation failed", details := none,
        attestation := none } := by
  refine ⟨?_, ?_, ?_⟩
  · have hne1 : ¬("rebalance" = "restake") := by decide
    have hne2 : ¬("rebalance" = "returnToPool") := by decide
    simp [validatePositionState, hne1, hne2]
  · norm_num [validatePrices, sampleEnv]
  · rfl

/-! ### Claim about the validation-before-attestation invariant -/

/-- Claim C1: an attestation is only ever constructed after both price
reconciliation and position-state validation succeed, and a failed validation
never reaches the signer. In the program this invariant holds vacuously: the
un-awaited `validatePrices` call (line 30) makes the price gate always fail,
so `generateAttestation` is unreachable from `validatePositionMovement`, no
call ever produces an attestation, and the result is independent of every
signer-side collaborator (signing, external submission, store) and of the
evaluator; a fortiori a failed validation never reaches the signer. -/
theorem validatePositionMovement_attestation_gate (env : Env) (ext ext' : Externals)
    (position : Position) (action : String) (currentPrice : ℚ) :
    (validatePositionMovement env ext position action currentPrice).attestation = none ∧
    (ext'.chainlinkPrice = ext.chainlinkPrice →
      validatePositionMovement env ext' position action currentPrice =
        validatePositionMovement env ext position action currentPrice) := by
  constructor
  · unfold validatePositionMovement validatePositionMovementE
    cases ext.chainlinkPrice with
    | error e => rfl
    | ok chainlinkPrice => rfl
  · intro h
    unfold validatePositionMovement validatePositionMovementE
    rw [h]
    cases ext.chainlinkPrice with
    | error e => rfl
    | ok chainlinkPrice => rfl

/-- Witness for C1: the sample run with every collaborator succeeding carries
no attestation, and replacing the store by a failing one leaves the result
unchanged: the signer side is never consulted. -/
theorem validatePositionMovement_attestation_gate_witness :
    (validatePositionMovement sampleEnv sampleExternals samplePosition "restake"
      (1/2)).attestation = none ∧
    validatePositionMovement sampleEnv
        { sampleExternals with storeAttestation := Except.error "store down" }
        samplePosition "restake" (1/2) =
      validatePositionMovement sampleEnv sampleExternals samplePosition "restake" (1/2) :=
  have h := validatePositionMovement_attestation_gate sampleEnv sampleExternals
    { sampleExternals with storeAttestation := Except.error "store down" }
    samplePosition "restake" (1/2)
  ⟨h.1, h.2 rfl⟩

/-! ### Claims about error handling -/

/-- Claim C7: `verifyAttestation` never propagates an exception: a missing signature
yields an immediate `valid:false` with a reason and no recovery call, and a
recovery that throws is caught and reported as `valid:false` with the
underlying message. -/
theorem verifyAttestation_no_propagation (ext : Externals) (attestation : Attestation) :
    (attestation.signature = none →
      verifyAttestation ext attestation =
        { valid := false, signer := none, reason := some "No signature on attestation",
          isApprovedValidator := none }) ∧
    (∀ sig e, attestation.signature = some sig →
      ext.verifyMessage (attestationMessageHash attestation) sig = Except.error e →
      verifyAttestation ext attestation =
        { valid := false, signer := none, reason := some e,
          isApprovedValidator := none }) := by
  constructor
  · intro h
    unfold verifyAttestation verifyAttestationE
    rw [h]
  · intro sig e hs he
    unfold verifyAttestation verifyAttestationE
    rw [hs]
    simp only [he]

/-- Witness for C7: an unsigned sample attestation, and a signed one whose
recovery collaborator throws. -/
theorem verifyAttestation_no_propagation_witness :
    verifyAttestation sampleExternals sampleAttestation =
      { valid := false, signer := none, reason := some "No signature on attestation",
        isApprovedValidator := none } ∧
    verifyAttestation
        { sampleExternals with verifyMessage := fun _ _ => Except.error "malformed signature" }
        { sampleAttestation with signature := some "0xdeadbeef" } =
      { valid := false, signer := none, reason := some "malformed signature",
        isApprovedValidator := none } :=
  ⟨(verifyAttestation_no_propagation sampleExternals sampleAttestation).1 rfl,
    (verifyAttestation_no_propagation
      { sampleExternals with verifyMessage := fun _ _ => Except.error "malformed signature" }
      { sampleAttestation with signature := some "0xdeadbeef" }).2
      "0xdeadbeef" "malformed signature" rfl rfl⟩

/-- Claim C8: inside `generateAttestation`, a failing external validation submission
is non-fatal and leaves `externalValidation` absent, while a failing
attestation store propagates as an error out of the function. -/
theorem generateAttestation_error_policy (env : Env) (ext : Externals) (position : Position)
    (action : String) (currentPrice : ℚ) :
    (∀ url e, env.VALIDATION_API_URL = some url → ext.externalSubmit = Except.error e →
      ext.storeAttestation = Except.ok () →
      ∃ att, generateAttestation env ext position action currentPrice = Except.ok att ∧
        att.externalValidation = none) ∧
    (∀ e, ext.storeAttestation = Except.error e →
      generateAttestation env ext position action currentPrice = Except.error e) := by
  constructor
  · intro url e hurl hsubmit hstore
    unfold generateAttestation
    rw [hurl, hsubmit, hstore]
    cases env.VALIDATOR_PRIVATE_KEY with
    | none => exact ⟨_, rfl, rfl⟩
    | some key => exact ⟨_, rfl, rfl⟩
  · intro e hstore
    unfold generateAttestation
    rw [hstore]

/-- Witness for C8: a configured endpoint whose submission fails while the
store succeeds, and a failing store. -/
theorem generateAttestation_error_policy_witness :
    (∃ att, generateAttestation
        { sampleEnv with VALIDATION_API_URL := some "https://api.example" }
        { sampleExternals with externalSubmit := Except.error "api down" }
        samplePosition "restake" (1/2) = Except.ok att ∧
      att.externalValidation = none) ∧
    generateAttestation sampleEnv
        { sampleExternals with storeAttestation := Except.error "store down" }
        samplePosition "restake" (1/2) = Except.error "store down" :=
  ⟨(generateAttestation_error_policy
      { sampleEnv with VALIDATION_API_URL := some "https://api.example" }
      { sampleExternals with externalSubmit := Except.error "api down" }
      samplePosition "restake" (1/2)).1 "https://api.example" "api down" rfl rfl rfl,
    (generateAttestation_error_policy sampleEnv
      { sampleExternals with storeAttestation := Except.error "store down" }
      samplePosition "restake" (1/2)).2 "store down" rfl⟩

/-- Claim C9: every error thrown by a sub-step of `validatePositionMovement`
is caught and returned as the uniform failure record (first conjunct). In the
program the secondary price fetch is the only sub-step that can throw: when
it rejects, its error is the error of the orchestrated body (second
conjunct); when it resolves, the body returns normally with the
price-failure record — the un-awaited `validatePrices` promise fails the
gate before the evaluation, attestation generation or storage sub-steps
could run, so no other sub-step error exists (third conjunct). -/
theorem validatePositionMovement_catches_errors (env : Env) (ext : Externals)
    (position : Position) (action : String) (currentPrice : ℚ) :
    (∀ e, validatePositionMovementE env ext position action currentPrice = Except.error e →
      validatePositionMovement env ext position action currentPrice =
        { success := false, reason := some "Validation error",
          details := some (.errMessage e), attestation := none }) ∧
    (∀ e, ext.chainlinkPrice = Except.error e →
      validatePositionMovementE env ext position action currentPrice = Except.error e) ∧
    (∀ chainlinkPrice, ext.chainlinkPrice = Except.ok chainlinkPrice →
      validatePositionMovementE env ext position action currentPrice =
        Except.ok
          { success := false, reason := some "Price validation failed",
            details := none, attestation := none }) := by
  refine ⟨fun e he => ?_, fun e he => ?_, fun chainlinkPrice hcp => ?_⟩
  · unfold validatePositionMovement
    rw [he]
  · unfold validatePositionMovementE
    rw [he]
  · unfold validatePositionMovementE
    rw [hcp]
    rfl

/-- Witness for C9: an unreachable secondary price source surfaces as the
uniform caught failure shape; a reachable one settles the body normally with
the price-failure record. -/
theorem validatePositionMovement_catches_errors_witness :
    validatePositionMovement sampleEnv
        { sampleExternals with chainlinkPrice := Except.error "network down" }
        samplePosition "restake" (1/2) =
      { success := false, reason := some "Validation error",
        details := some (.errMessage "network down"), attestation := none } ∧
    validatePositionMovementE sampleEnv
        { sampleExternals with chainlinkPrice := Except.error "network down" }
        samplePosition "restake" (1/2) = Except.error "network down" ∧
    validatePositionMovementE sampleEnv sampleExternals samplePosition "restake" (1/2) =
      Except.ok
        { success := false, reason := some "Price validation failed",
          details := none, attestation := none } :=
  have h1 := validatePositionMovement_catches_errors sampleEnv
    { sampleExternals with chainlinkPrice := Except.error "network down" }
    samplePosition "restake" (1/2)
  have h2 := validatePositionMovement_catches_errors sampleEnv sampleExternals
    samplePosition "restake" (1/2)
  ⟨h1.1 "network down" (h1.2.1 "network down" rfl), h1.2.1 "network down" rfl,
    h2.2.2 (1/2) rfl⟩
